import Mathlib

/-!
Shallow embedding of the SNS application's API route handlers
(app/api/posts, app/api/posts/[postId], app/api/likes, app/api/comments,
app/api/follows) and the identity-resolution helper they share, together
with theorems settling the specification's claims about them.

The store (Supabase) is modelled as explicit state: lists of rows per
table plus the storage bucket's file paths.  Asynchronous store calls
that can fail for infrastructure reasons are modelled with injected
boolean fault flags; values the environment supplies (generated file
names, store-assigned row ids, timestamps, public URLs) are passed as
parameters.  Absent or empty request-body string fields are modelled as
the empty string: both are falsy in the JavaScript truthiness checks the
handlers use.
-/

namespace SnsApi

/-- Model of the ECMAScript `p.startsWith(q)` receiver/argument test on
the underlying character lists: `charsPre p s` is true when `p` is an
initial segment of `s`. -/
def charsPre : List Char → List Char → Bool
  | [], _ => true
  | _ :: _, [] => false
  | a :: as, b :: bs => a = b && charsPre as bs

/-- Model of `s.startsWith(p)` from the source (used for the
`imageFile.type.startsWith("image/")` check). -/
def strStarts (p s : String) : Bool := charsPre p.data s.data

/-- Model of `content.trim()`: drop whitespace from both ends. -/
def strTrim (s : String) : String :=
  String.mk (((s.data.dropWhile Char.isWhitespace).reverse.dropWhile
    Char.isWhitespace).reverse)

/-- Row of the `users` table: internal id, external-auth (Clerk) id,
display name. -/
structure UserRow where
  id : String
  clerk_id : String
  name : String
deriving Repr, DecidableEq

/-- Row of the `posts` table. Timestamps are modelled as naturals. -/
structure PostRow where
  id : String
  user_id : String
  image_url : String
  caption : Option String
  created_at : Nat
deriving Repr, DecidableEq

/-- Row of the `likes` table: the (post_id, user_id) pair. -/
structure LikeRow where
  post_id : String
  user_id : String
deriving Repr, DecidableEq

/-- Row of the `comments` table. -/
structure CommentRow where
  id : String
  post_id : String
  user_id : String
  content : String
  created_at : Nat
deriving Repr, DecidableEq

/-- Row of the `follows` table: the (follower_id, following_id) pair. -/
structure FollowRow where
  follower_id : String
  following_id : String
deriving Repr, DecidableEq

/-- The external store: one list per table, plus the `posts` storage
bucket's file paths. -/
structure Store where
  users : List UserRow
  posts : List PostRow
  likes : List LikeRow
  comments : List CommentRow
  follows : List FollowRow
  storageFiles : List String
deriving Repr, DecidableEq

/-- The uniform response envelope: HTTP status plus the
`{ success, error? }` JSON body (the `data` payload, when claimed, is
read off the store state instead). -/
structure HttpResponse where
  status : Nat
  success : Bool
  error : Option String
deriving Repr, DecidableEq

/-- A store access performed by a handler, for claims about which store
I/O precedes a rejection. -/
inductive StoreOp where
  | read (table : String)
  | write (table : String)
deriving Repr, DecidableEq

/-- Outcome of a `.single()` store query: a row, no matching row
(PGRST116), or an infrastructure failure of the call itself. -/
inductive QueryOutcome (α : Type) where
  | ok (a : α)
  | missing
  | infraError
deriving Repr, DecidableEq

/-- The store call
`supabase.from("users").select("id").eq("clerk_id", clerkUserId).single()`.
The `fail` flag injects an infrastructure failure of the call. -/
def usersLookupByClerkId (s : Store) (fail : Bool) (clerkUserId : String) :
    QueryOutcome UserRow :=
  if fail then .infraError
  else
    match s.users.find? (fun u => u.clerk_id == clerkUserId) with
    | some u => .ok u
    | none => .missing

/-- Model of the `getSupabaseUserId` helper that every route file
repeats: run the clerk-id lookup and apply
`if (error || !data) return null; return data.id`.  Note that both the
missing-row outcome and the infrastructure-failure outcome take the
`error || !data` branch and collapse to `none`. -/
def getSupabaseUserId (s : Store) (fail : Bool) (clerkUserId : String) :
    Option String :=
  match usersLookupByClerkId s fail clerkUserId with
  | .ok u => some u.id
  | .missing => none
  | .infraError => none

/-- Number of `likes` rows carrying a given (post_id, user_id) key. -/
def likeKeyCount (likes : List LikeRow) (postId userId : String) : Nat :=
  (likes.filter (fun l => l.post_id == postId && l.user_id == userId)).length

/-- Model of
`supabase.from("likes").upsert({post_id, user_id}, {onConflict: "post_id,user_id"})`:
when a row with the key exists it is updated in place (the row has no
non-key columns, so the table is unchanged), otherwise the row is
inserted. -/
def likesUpsert (likes : List LikeRow) (postId userId : String) :
    List LikeRow :=
  if likes.any (fun l => l.post_id == postId && l.user_id == userId) then likes
  else likes ++ [⟨postId, userId⟩]

/-- Model of `POST /api/likes` (app/api/likes/route.ts).  Control flow of
the source: Clerk auth check, body parse and `!postId` check, clerk-id to
internal-id resolution, then the upsert.  `raceUniqueViolation` injects
the store reporting error code 23505 on the upsert (race case) and
`upsertFail` any other upsert failure. -/
def likesPOST (s : Store) (lookupFail : Bool) (clerkUserId : Option String)
    (postId : String) (raceUniqueViolation upsertFail : Bool) :
    HttpResponse × Store :=
  match clerkUserId with
  | none => (⟨401, false, some "Unauthorized"⟩, s)
  | some cid =>
    if postId = "" then (⟨400, false, some "postId is required"⟩, s)
    else
      match getSupabaseUserId s lookupFail cid with
      | none => (⟨404, false, some "User not found in database"⟩, s)
      | some supabaseUserId =>
        if raceUniqueViolation then (⟨409, false, some "Already liked"⟩, s)
        else if upsertFail then (⟨500, false, some "Failed to add like"⟩, s)
        else
          (⟨200, true, none⟩,
            { s with likes := likesUpsert s.likes postId supabaseUserId })

/-- Model of `DELETE /api/likes` (app/api/likes/route.ts): auth, body
parse and `!postId` check, identity resolution, then
`.delete().eq("post_id", postId).eq("user_id", supabaseUserId)`. -/
def likesDELETE (s : Store) (lookupFail : Bool) (clerkUserId : Option String)
    (postId : String) (deleteFail : Bool) : HttpResponse × Store :=
  match clerkUserId with
  | none => (⟨401, false, some "Unauthorized"⟩, s)
  | some cid =>
    if postId = "" then (⟨400, false, some "postId is required"⟩, s)
    else
      match getSupabaseUserId s lookupFail cid with
      | none => (⟨404, false, some "User not found in database"⟩, s)
      | some supabaseUserId =>
        if deleteFail then (⟨500, false, some "Failed to remove like"⟩, s)
        else
          (⟨200, true, none⟩,
            { s with likes := (s.likes.filter (fun l =>
                !(l.post_id == postId && l.user_id == supabaseUserId))) })

/-- Model of `POST /api/follows` (app/api/follows/route.ts).  Control
flow of the source: Clerk auth check, clerk-id to internal-id resolution
(a `users` read), body parse and `!followingId` check, the self-follow
check, the existing-follow read, then the insert.  The third component
lists the store accesses the invocation performed, in order. -/
def followsPOST (s : Store) (lookupFail followsReadFail insertFail : Bool)
    (clerkUserId : Option String) (followingId : String) :
    HttpResponse × Store × List StoreOp :=
  match clerkUserId with
  | none => (⟨401, false, some "Unauthorized"⟩, s, [])
  | some cid =>
    match getSupabaseUserId s lookupFail cid with
    | none =>
      (⟨404, false, some "User not found in database"⟩, s, [.read "users"])
    | some followerId =>
      if followingId = "" then
        (⟨400, false, some "followingId is required"⟩, s, [.read "users"])
      else if followerId = followingId then
        (⟨400, false, some "Cannot follow yourself"⟩, s, [.read "users"])
      else if followsReadFail then
        (⟨500, false, some "Failed to check follow status"⟩, s,
          [.read "users", .read "follows"])
      else
        let existingFollows := s.follows.filter (fun f =>
          f.follower_id == followerId && f.following_id == followingId)
        if existingFollows.length > 0 then
          (⟨400, false, some "Already following this user"⟩, s,
            [.read "users", .read "follows"])
        else if insertFail then
          (⟨500, false, some "Failed to follow user"⟩, s,
            [.read "users", .read "follows", .write "follows"])
        else
          (⟨200, true, none⟩,
            { s with follows := s.follows ++ [⟨followerId, followingId⟩] },
            [.read "users", .read "follows", .write "follows"])

/-- Model of `DELETE /api/follows` (app/api/follows/route.ts): auth,
identity resolution, `!followingId` check, then the pair delete. -/
def followsDELETE (s : Store) (lookupFail deleteFail : Bool)
    (clerkUserId : Option String) (followingId : String) :
    HttpResponse × Store :=
  match clerkUserId with
  | none => (⟨401, false, some "Unauthorized"⟩, s)
  | some cid =>
    match getSupabaseUserId s lookupFail cid with
    | none => (⟨404, false, some "User not found in database"⟩, s)
    | some followerId =>
      if followingId = "" then
        (⟨400, false, some "followingId is required"⟩, s)
      else if deleteFail then
        (⟨500, false, some "Failed to unfollow user"⟩, s)
      else
        (⟨200, true, none⟩,
          { s with follows := (s.follows.filter (fun f =>
              !(f.follower_id == followerId && f.following_id == followingId))) })

/-- Model of `POST /api/comments` (app/api/comments/route.ts).  Control
flow of the source: Clerk auth check, body parse with the
`!postId || !content` check, the trimmed-content emptiness check,
clerk-id to internal-id resolution, then the insert of the trimmed
content.  `newCommentId` and `now` stand for the store-assigned id and
timestamp of the inserted row. -/
def commentsPOST (s : Store) (lookupFail : Bool) (clerkUserId : Option String)
    (postId content : String) (newCommentId : String) (now : Nat)
    (insertFail : Bool) : HttpResponse × Store :=
  match clerkUserId with
  | none => (⟨401, false, some "Unauthorized"⟩, s)
  | some cid =>
    if postId = "" ∨ content = "" then
      (⟨400, false, some "postId and content are required"⟩, s)
    else
      let trimmedContent := strTrim content
      if trimmedContent.length = 0 then
        (⟨400, false, some "Comment content cannot be empty"⟩, s)
      else
        match getSupabaseUserId s lookupFail cid with
        | none => (⟨404, false, some "User not found in database"⟩, s)
        | some supabaseUserId =>
          if insertFail then
            (⟨500, false, some "Failed to create comment"⟩, s)
          else
            (⟨200, true, none⟩,
              { s with comments := s.comments ++
                  [⟨newCommentId, postId, supabaseUserId, trimmedContent, now⟩] })

/-- Model of `DELETE /api/comments` (app/api/comments/route.ts).  Control
flow of the source: Clerk auth check, body parse and `!commentId` check,
clerk-id to internal-id resolution, fetch of the comment row
(`fetchFail` injects a failing fetch, which the source folds into 404),
the ownership check, then the delete. -/
def commentsDELETE (s : Store) (lookupFail fetchFail deleteFail : Bool)
    (clerkUserId : Option String) (commentId : String) :
    HttpResponse × Store :=
  match clerkUserId with
  | none => (⟨401, false, some "Unauthorized"⟩, s)
  | some cid =>
    if commentId = "" then (⟨400, false, some "commentId is required"⟩, s)
    else
      match getSupabaseUserId s lookupFail cid with
      | none => (⟨404, false, some "User not found in database"⟩, s)
      | some supabaseUserId =>
        match (if fetchFail then none
               else s.comments.find? (fun c => c.id == commentId)) with
        | none => (⟨404, false, some "Comment not found"⟩, s)
        | some comment =>
          if comment.user_id ≠ supabaseUserId then
            (⟨403, false, some "You can only delete your own comments"⟩, s)
          else if deleteFail then
            (⟨500, false, some "Failed to delete comment"⟩, s)
          else
            (⟨200, true, none⟩,
              { s with comments := (s.comments.filter (fun c =>
                  !(c.id == commentId))) })

/-- The uploaded file from the multipart form: name, byte size, and MIME
type (the source's `imageFile.type`). -/
structure ImageFile where
  name : String
  size : Nat
  mimeType : String
deriving Repr, DecidableEq

/-- The caption length check of `POST /api/posts`:
`caption && caption.length > MAX_CAPTION_LENGTH` with
`MAX_CAPTION_LENGTH = 2200` (a `none` caption is falsy and passes). -/
def captionTooLong (caption : Option String) : Bool :=
  match caption with
  | some c => decide (c.length > 2200)
  | none => false

/-- Model of `POST /api/posts` (app/api/posts/route.ts).  Control flow of
the source: Clerk auth check, clerk-id to internal-id resolution, image
presence check, 5MB size check, `type.startsWith("image/")` check,
caption length check, storage upload of `clerkUserId/fileName`, then the
`posts` row insert; when the insert fails the just-uploaded file is
removed again (compensation) and a 500 is returned.  `fileName`,
`newPostId`, `publicUrl` and `now` stand for the generated file name and
the store-assigned values. -/
def postsPOST (s : Store) (lookupFail uploadFail insertFail : Bool)
    (clerkUserId : Option String) (imageFile : Option ImageFile)
    (caption : Option String) (fileName newPostId publicUrl : String)
    (now : Nat) : HttpResponse × Store :=
  match clerkUserId with
  | none => (⟨401, false, some "Unauthorized"⟩, s)
  | some clerkId =>
    match getSupabaseUserId s lookupFail clerkId with
    | none => (⟨404, false, some "User not found in database"⟩, s)
    | some supabaseUserId =>
      match imageFile with
      | none => (⟨400, false, some "Image file is required"⟩, s)
      | some f =>
        if f.size > 5 * 1024 * 1024 then
          (⟨400, false, some "File size exceeds 5MB limit"⟩, s)
        else if !strStarts "image/" f.mimeType then
          (⟨400, false, some "Only image files are allowed"⟩, s)
        else if captionTooLong caption then
          (⟨400, false, some "Caption exceeds 2200 characters"⟩, s)
        else
          let filePath := clerkId ++ "/" ++ fileName
          if uploadFail then
            (⟨500, false, some "Failed to upload image"⟩, s)
          else
            let s1 := { s with storageFiles := s.storageFiles ++ [filePath] }
            if insertFail then
              (⟨500, false, some "Failed to create post"⟩,
                { s1 with storageFiles :=
                    (s1.storageFiles.filter (fun q => !(q == filePath))) })
            else
              (⟨200, true, none⟩,
                { s1 with posts := s1.posts ++
                    [⟨newPostId, supabaseUserId, publicUrl, caption, now⟩] })

/-- Split a character list at every occurrence of `c`, keeping empty
segments, as ECMAScript `String.prototype.split` does
(so an empty input yields one empty segment). -/
def splitOnChar (c : Char) : List Char → List (List Char)
  | [] => [[]]
  | a :: as =>
    match splitOnChar c as with
    | [] => if a = c then [[], []] else [[a]]
    | g :: gs => if a = c then [] :: g :: gs else (a :: g) :: gs

/-- Join character-list segments with a slash, as `.join("/")` does. -/
def joinWithSlash : List (List Char) → List Char
  | [] => []
  | [g] => g
  | g :: gs => g ++ '/' :: joinWithSlash gs

/-- Skip up to and including the first "://" of an absolute URL; `none`
when there is no such separator (the `new URL(...)` constructor throws
and the surrounding catch returns `null`). -/
def afterSchemeSep : List Char → Option (List Char)
  | ':' :: '/' :: '/' :: rest => some rest
  | _ :: rest => afterSchemeSep rest
  | [] => none

/-- The `new URL(imageUrl).pathname` of an absolute URL without query or
fragment: everything from the first slash after the host. -/
def pathnameChars (url : List Char) : Option (List Char) :=
  match afterSchemeSep url with
  | none => none
  | some rest => some (rest.dropWhile (fun c => c ≠ '/'))

/-- Model of `extractFilePathFromUrl` (app/api/posts/[postId]/route.ts):
split the pathname on "/", find the segment "public", and return the
joined segments after it; `null` when "public" is absent or last. -/
def extractFilePathFromUrl (imageUrl : String) : Option String :=
  match pathnameChars imageUrl.data with
  | none => none
  | some pn =>
    let pathParts := splitOnChar '/' pn
    match pathParts.findIdx? (fun p => p = "public".data) with
    | none => none
    | some publicIndex =>
      if publicIndex = pathParts.length - 1 then none
      else some (String.mk (joinWithSlash (pathParts.drop (publicIndex + 1))))

/-- Model of `DELETE /api/posts/[postId]`
(app/api/posts/[postId]/route.ts).  Control flow of the source: the
`!postId` route-parameter check, Clerk auth check, clerk-id to
internal-id resolution, fetch of the post row (`postFetchFail` injects a
failing fetch, which the source folds into 404), the ownership check,
best-effort storage removal of the extracted file path (`storageFail`
injects a failing removal, which does not block the row delete), then
the row delete. -/
def postsDELETE (s : Store) (lookupFail postFetchFail storageFail deleteFail : Bool)
    (clerkUserId : Option String) (postId : String) : HttpResponse × Store :=
  if postId = "" then (⟨400, false, some "postId is required"⟩, s)
  else
    match clerkUserId with
    | none => (⟨401, false, some "Unauthorized"⟩, s)
    | some cid =>
      match getSupabaseUserId s lookupFail cid with
      | none => (⟨404, false, some "User not found in database"⟩, s)
      | some supabaseUserId =>
        match (if postFetchFail then none
               else s.posts.find? (fun p => p.id == postId)) with
        | none => (⟨404, false, some "Post not found"⟩, s)
        | some post =>
          if post.user_id ≠ supabaseUserId then
            (⟨403, false, some "Forbidden: You can only delete your own posts"⟩, s)
          else
            let s1 :=
              if post.image_url ≠ "" then
                match extractFilePathFromUrl post.image_url with
                | some fp =>
                  if storageFail then s
                  else { s with storageFiles :=
                      (s.storageFiles.filter (fun q => !(q == fp))) }
                | none => s
              else s
            if deleteFail then
              (⟨500, false, some "Failed to delete post"⟩, s1)
            else
              (⟨200, true, none⟩,
                { s1 with posts := (s1.posts.filter (fun p => !(p.id == postId))) })

/-- Descending creation-time order on post rows, the
`.order("created_at", { ascending: false })` of the feed query. -/
def byCreatedAtDesc (a b : PostRow) : Prop := b.created_at ≤ a.created_at

instance : DecidableRel byCreatedAtDesc := fun a b =>
  Nat.decLe b.created_at a.created_at

instance : IsTotal PostRow byCreatedAtDesc :=
  ⟨fun a b => Nat.le_total b.created_at a.created_at⟩

instance : IsTrans PostRow byCreatedAtDesc :=
  ⟨fun _ _ _ h1 h2 => Nat.le_trans h2 h1⟩

/-- The rows the feed query ranges over: all posts, or one user's posts
when the `userId` query parameter is present. -/
def feedRows (s : Store) (userId : Option String) : List PostRow :=
  match userId with
  | some u => s.posts.filter (fun p => p.user_id == u)
  | none => s.posts

/-- The store's ordered view of the (filtered) `post_stats` rows:
a stable sort by creation time, descending, matching
`.order("created_at", { ascending: false })` with store-assigned
insertion order breaking ties. -/
def orderPostsDesc (posts : List PostRow) : List PostRow :=
  List.insertionSort byCreatedAtDesc posts

/-- Row selection of `GET /api/posts` (app/api/posts/route.ts): order the
(optionally user-filtered) rows by creation time descending and apply
`.range(offset, offset + limit - 1)`, i.e. take `limit` rows starting at
`offset`. -/
def postsGET (s : Store) (limit offset : Nat) (userId : Option String) :
    List PostRow :=
  ((orderPostsDesc (feedRows s userId)).drop offset).take limit

/-- The `{ id, name }` object placed in a response for an author. -/
structure DisplayUser where
  id : String
  name : String
deriving Repr, DecidableEq

/-- Model of the author substitution
`{ id: user?.id || fallbackId, name: user?.name || "Unknown" }`: a failed
or empty lookup falls back to the raw user id and the name "Unknown"
(an empty string is falsy in the source, hence also replaced). -/
def displayUser (fallbackId : String) (lookup : Option UserRow) : DisplayUser :=
  { id := match lookup with
      | some u => if u.id = "" then fallbackId else u.id
      | none => fallbackId
    name := match lookup with
      | some u => if u.name = "" then "Unknown" else u.name
      | none => "Unknown" }

/-- A comment as embedded in a feed or detail response. -/
structure EnrichedComment where
  id : String
  content : String
  user : DisplayUser
  created_at : Nat
  user_id : String
deriving Repr, DecidableEq

/-- One element of the `commentsWithUsers` map: the comment plus its
author display object; `userLookup` models the secondary author read,
returning `none` when the read fails or finds no row. -/
def enrichComment (userLookup : String → Option UserRow) (c : CommentRow) :
    EnrichedComment :=
  { id := c.id
    content := c.content
    user := displayUser c.user_id (userLookup c.user_id)
    created_at := c.created_at
    user_id := c.user_id }

/-- A post as returned by the feed and detail endpoints. -/
structure PostWithDetails where
  id : String
  user_id : String
  image_url : String
  caption : Option String
  created_at : Nat
  likes_count : Nat
  comments_count : Nat
  user : DisplayUser
  recent_comments : List EnrichedComment
deriving Repr, DecidableEq

/-- One element of the `postsStats.map` in `GET /api/posts`: assemble a
response entry for a stats row.  `userLookup` models the author read,
`commentsLookup` the recent-comments read (`none` when that read errors;
the source then substitutes `comments || []`), and `likesCount` /
`commentsCount` the counts the `post_stats` view computed. -/
def assemblePost (userLookup : String → Option UserRow)
    (commentsLookup : String → Option (List CommentRow))
    (likesCount commentsCount : String → Nat) (p : PostRow) :
    PostWithDetails :=
  { id := p.id
    user_id := p.user_id
    image_url := p.image_url
    caption := p.caption
    created_at := p.created_at
    likes_count := likesCount p.id
    comments_count := commentsCount p.id
    user := displayUser p.user_id (userLookup p.user_id)
    recent_comments := ((commentsLookup p.id).getD []).map (enrichComment userLookup) }

/-- The assembly stage of `GET /api/posts`: one response entry per
fetched stats row, whatever the secondary reads return. -/
def feedAssemble (userLookup : String → Option UserRow)
    (commentsLookup : String → Option (List CommentRow))
    (likesCount commentsCount : String → Nat) (rows : List PostRow) :
    List PostWithDetails :=
  rows.map (assemblePost userLookup commentsLookup likesCount commentsCount)

/-- The assembly stage of `GET /api/posts/[postId]` after the stats
fetch succeeded: the post with its author display object and the full
comment list (`comments || []` on a failed comments read). -/
def postDetailAssemble (userLookup : String → Option UserRow)
    (comments : Option (List CommentRow)) (likesCount commentsCount : Nat)
    (p : PostRow) : PostWithDetails :=
  { id := p.id
    user_id := p.user_id
    image_url := p.image_url
    caption := p.caption
    created_at := p.created_at
    likes_count := likesCount
    comments_count := commentsCount
    user := displayUser p.user_id (userLookup p.user_id)
    recent_comments := (comments.getD []).map (enrichComment userLookup) }

/-- Length of a string built from an explicit character list. -/
theorem strMk_length (l : List Char) : (String.mk l).length = l.length := rfl

/-- A nonempty string has nonzero length. -/
theorem strLength_ne_zero (s : String) (h : s ≠ "") : s.length ≠ 0 := by
  intro h0
  apply h
  unfold String.length at h0
  rcases s with ⟨d⟩
  simp only [List.length_eq_zero] at h0
  simp [h0]

/-- A two-user sample store: Alice (internal "u1", external "c1") owns
post "p1" and has liked it; Bob is "u2"/"c2". -/
def sampleStore : Store :=
  { users := [⟨"u1", "c1", "Alice"⟩, ⟨"u2", "c2", "Bob"⟩]
    posts := [⟨"p1", "u1", "https://h.test/storage/v1/object/public/posts/c1/a.jpg", none, 5⟩]
    likes := [⟨"p1", "u1"⟩]
    comments := []
    follows := []
    storageFiles := ["c1/a.jpg"] }

/-- Claim C4 (amended): the identity resolver, applied to an external-auth
id, returns the matching internal user id on a hit and `none` on a lookup
miss without throwing; an infrastructure failure of the store call is
collapsed to the same `none` ("not found") outcome instead of a distinct
transient-error signal. -/
theorem getSupabaseUserId_outcomes (s : Store) (cid : String) :
    (∀ u : UserRow, s.users.find? (fun v => v.clerk_id == cid) = some u →
      getSupabaseUserId s false cid = some u.id) ∧
    (s.users.find? (fun v => v.clerk_id == cid) = none →
      getSupabaseUserId s false cid = none) ∧
    getSupabaseUserId s true cid = none := by
  refine ⟨?_, ?_, ?_⟩
  · intro u h
    simp [getSupabaseUserId, usersLookupByClerkId, h]
  · intro h
    simp [getSupabaseUserId, usersLookupByClerkId, h]
  · simp [getSupabaseUserId, usersLookupByClerkId]

/-- Witness for C4: concrete hit, miss, and infrastructure-failure runs
of the resolver on the sample store. -/
theorem getSupabaseUserId_outcomes_witness :
    getSupabaseUserId sampleStore false "c1" = some "u1" ∧
    getSupabaseUserId sampleStore false "c9" = none ∧
    getSupabaseUserId sampleStore true "c1" = none :=
  ⟨(getSupabaseUserId_outcomes sampleStore "c1").1 ⟨"u1", "c1", "Alice"⟩ (by decide),
   (getSupabaseUserId_outcomes sampleStore "c9").2.1 (by decide),
   (getSupabaseUserId_outcomes sampleStore "c1").2.2⟩

/-- Counterexample for C4 as stated: with the user row present but the
store call failing for infrastructure reasons, the resolver returns the
very same `none` outcome as a legitimate lookup miss on an empty store —
no transient infrastructure error distinct from "not found" is
signalled. -/
theorem getSupabaseUserId_infra_collapse_counterexample :
    getSupabaseUserId sampleStore true "c1" =
      getSupabaseUserId (⟨[], [], [], [], [], []⟩ : Store) false "c1" ∧
    getSupabaseUserId sampleStore true "c1" = none := by
  decide

/-- Claim C3 (amended): a self-follow request by a resolved caller is
rejected with the validation error "Cannot follow yourself" (400), no
Follow row is produced and the store is unchanged; the only store access
performed before the rejection is the users-table read of the identity
resolution — no follows-table I/O and no write occurs. -/
theorem followsPOST_self_follow (s : Store) (cid fid : String)
    (lookupFail followsReadFail insertFail : Bool)
    (hres : getSupabaseUserId s lookupFail cid = some fid)
    (hfid : fid ≠ "") :
    followsPOST s lookupFail followsReadFail insertFail (some cid) fid =
      (⟨400, false, some "Cannot follow yourself"⟩, s, [StoreOp.read "users"]) := by
  simp [followsPOST, hres, hfid]

/-- Witness for C3: Alice ("c1", internal "u1") asking to follow "u1". -/
theorem followsPOST_self_follow_witness :
    followsPOST sampleStore false false false (some "c1") "u1" =
      (⟨400, false, some "Cannot follow yourself"⟩, sampleStore,
        [StoreOp.read "users"]) :=
  followsPOST_self_follow sampleStore "c1" "u1" false false false
    (by decide) (by decide)

/-- Counterexample for C3 as stated: the self-follow rejection is issued,
but the list of store accesses performed before it is not empty — the
identity resolution already read the users table, so the rejection does
not precede all store I/O. -/
theorem followsPOST_self_follow_io_counterexample :
    (followsPOST sampleStore false false false (some "c1") "u1").1 =
      ⟨400, false, some "Cannot follow yourself"⟩ ∧
    (followsPOST sampleStore false false false (some "c1") "u1").2.2 ≠ [] := by
  decide

/-- Claim C1: a DELETE on a post whose stored owner differs from the
caller's resolved internal id returns Forbidden (403) and performs no
write — the returned store equals the input store, so neither the post
row nor the stored image file is touched. -/
theorem postsDELETE_forbidden_frame (s : Store) (cid postId uid : String)
    (p : PostRow) (lookupFail storageFail deleteFail : Bool)
    (hpid : postId ≠ "")
    (hres : getSupabaseUserId s lookupFail cid = some uid)
    (hfind : s.posts.find? (fun q => q.id == postId) = some p)
    (howner : p.user_id ≠ uid) :
    postsDELETE s lookupFail false storageFail deleteFail (some cid) postId =
      (⟨403, false, some "Forbidden: You can only delete your own posts"⟩, s) := by
  simp [postsDELETE, hpid, hres, hfind, howner]

/-- Witness for C1: Bob ("c2", internal "u2") attempting to delete
Alice's post "p1" on the sample store. -/
theorem postsDELETE_forbidden_frame_witness :
    postsDELETE sampleStore false false false false (some "c2") "p1" =
      (⟨403, false, some "Forbidden: You can only delete your own posts"⟩,
        sampleStore) :=
  postsDELETE_forbidden_frame sampleStore "c2" "p1" "u2"
    ⟨"p1", "u1", "https://h.test/storage/v1/object/public/posts/c1/a.jpg", none, 5⟩
    false false false (by decide) (by decide) (by decide) (by decide)

/-- Upserting a (post, user) like key into a table that holds at most one
row for that key leaves exactly one row for the key. -/
theorem likeKeyCount_upsert (likes : List LikeRow) (pid uid : String)
    (hinv : likeKeyCount likes pid uid ≤ 1) :
    likeKeyCount (likesUpsert likes pid uid) pid uid = 1 := by
  unfold likesUpsert
  by_cases h : likes.any (fun l => l.post_id == pid && l.user_id == uid) = true
  · rw [if_pos h]
    have hpos : 0 < likeKeyCount likes pid uid := by
      unfold likeKeyCount
      rw [List.any_eq_true] at h
      obtain ⟨x, hx, hpx⟩ := h
      apply List.length_pos.mpr
      intro hnil
      have hmem : x ∈ likes.filter (fun l => l.post_id == pid && l.user_id == uid) :=
        List.mem_filter.mpr ⟨hx, hpx⟩
      rw [hnil] at hmem
      exact absurd hmem (List.not_mem_nil x)
    omega
  · rw [if_neg h]
    unfold likeKeyCount
    rw [List.filter_append]
    have hz : likes.filter (fun l => l.post_id == pid && l.user_id == uid) = [] := by
      rw [List.filter_eq_nil_iff]
      intro a ha hpa
      exact h (List.any_eq_true.mpr ⟨a, ha, hpa⟩)
    rw [hz]
    simp

/-- Deleting a like key that has no row in the table leaves the table
unchanged. -/
theorem likes_filter_noop (likes : List LikeRow) (pid uid : String)
    (h0 : likeKeyCount likes pid uid = 0) :
    likes.filter (fun l => !(l.post_id == pid && l.user_id == uid)) = likes := by
  apply List.filter_eq_self.mpr
  intro a ha
  unfold likeKeyCount at h0
  rw [List.length_eq_zero, List.filter_eq_nil_iff] at h0
  have h1 : (a.post_id == pid && a.user_id == uid) = false :=
    Bool.eq_false_iff.mpr (h0 a ha)
  show (!(a.post_id == pid && a.user_id == uid)) = true
  rw [h1]
  rfl

/-- Claim C2: for a resolved caller and a truthy post id, with the store
holding at most one like row for the key (the uniqueness constraint),
the like upsert yields a success outcome and exactly one like row —
also when the key was already present; a store-reported uniqueness
violation under a race instead surfaces as 409 "Already liked"; and
unliking a never-liked post is a no-op success that leaves the store
unchanged. -/
theorem likes_endpoints_idempotent (s : Store) (cid pid uid : String)
    (hpid : pid ≠ "")
    (hres : getSupabaseUserId s false cid = some uid)
    (hinv : likeKeyCount s.likes pid uid ≤ 1) :
    ((likesPOST s false (some cid) pid false false).1 = ⟨200, true, none⟩ ∧
      likeKeyCount (likesPOST s false (some cid) pid false false).2.likes pid uid = 1) ∧
    (likesPOST s false (some cid) pid true false).1 =
      ⟨409, false, some "Already liked"⟩ ∧
    (likeKeyCount s.likes pid uid = 0 →
      likesDELETE s false (some cid) pid false = (⟨200, true, none⟩, s)) := by
  have hstep : likesPOST s false (some cid) pid false false =
      (⟨200, true, none⟩, { s with likes := likesUpsert s.likes pid uid }) := by
    simp only [likesPOST]
    rw [if_neg hpid, hres]
    rfl
  have hstep409 : likesPOST s false (some cid) pid true false =
      (⟨409, false, some "Already liked"⟩, s) := by
    simp only [likesPOST]
    rw [if_neg hpid, hres]
    rfl
  refine ⟨⟨by rw [hstep], ?_⟩, by rw [hstep409], ?_⟩
  · rw [hstep]
    exact likeKeyCount_upsert s.likes pid uid hinv
  · intro h0
    have hfe := likes_filter_noop s.likes pid uid h0
    have hstepD : likesDELETE s false (some cid) pid false =
        (⟨200, true, none⟩, { s with likes := (s.likes.filter (fun l =>
          !(l.post_id == pid && l.user_id == uid))) }) := by
      simp only [likesDELETE]
      rw [if_neg hpid, hres]
      rfl
    rw [hstepD, hfe]

/-- Witness for C2: Alice likes her already-liked post "p1" (success,
one row), the injected race surfaces 409, and unliking the never-liked
"p2" is a no-op success. -/
theorem likes_endpoints_idempotent_witness :
    ((likesPOST sampleStore false (some "c1") "p1" false false).1 = ⟨200, true, none⟩ ∧
      likeKeyCount (likesPOST sampleStore false (some "c1") "p1" false false).2.likes "p1" "u1" = 1) ∧
    (likesPOST sampleStore false (some "c1") "p1" true false).1 =
      ⟨409, false, some "Already liked"⟩ ∧
    likesDELETE sampleStore false (some "c1") "p2" false = (⟨200, true, none⟩, sampleStore) := by
  have h1 := likes_endpoints_idempotent sampleStore "c1" "p1" "u1"
    (by decide) (by decide) (by decide)
  have h2 := likes_endpoints_idempotent sampleStore "c1" "p2" "u1"
    (by decide) (by decide) (by decide)
  exact ⟨h1.1, h1.2.1, h2.2.2 (by decide)⟩

/-- Claim C7: when a Follow row for the (follower, following) pair is
already present, the follow handler rejects the request with the
semantic error "Already following this user" after the explicit
existing-row read and before any write — the store is unchanged, so no
second row is inserted. -/
theorem followsPOST_duplicate_rejected (s : Store) (cid fid myid : String)
    (insertFail : Bool)
    (hres : getSupabaseUserId s false cid = some myid)
    (hfid : fid ≠ "") (hself : myid ≠ fid)
    (hdup : (⟨myid, fid⟩ : FollowRow) ∈ s.follows) :
    followsPOST s false false insertFail (some cid) fid =
      (⟨400, false, some "Already following this user"⟩, s,
        [StoreOp.read "users", StoreOp.read "follows"]) := by
  have hlen : 0 < (s.follows.filter (fun f =>
      f.follower_id == myid && f.following_id == fid)).length := by
    apply List.length_pos.mpr
    intro hnil
    have hmem : (⟨myid, fid⟩ : FollowRow) ∈ s.follows.filter (fun f =>
        f.follower_id == myid && f.following_id == fid) :=
      List.mem_filter.mpr ⟨hdup, by simp⟩
    rw [hnil] at hmem
    exact absurd hmem (List.not_mem_nil _)
  simp [followsPOST, hres, hfid, hself, hlen]

/-- Witness for C7: Alice already follows Bob; a second follow request
is rejected with the duplicate error and the store is unchanged. -/
theorem followsPOST_duplicate_rejected_witness :
    followsPOST
      { sampleStore with follows := [⟨"u1", "u2"⟩] } false false false
      (some "c1") "u2" =
      (⟨400, false, some "Already following this user"⟩,
        { sampleStore with follows := [⟨"u1", "u2"⟩] },
        [StoreOp.read "users", StoreOp.read "follows"]) :=
  followsPOST_duplicate_rejected
    { sampleStore with follows := [⟨"u1", "u2"⟩] } "c1" "u2" "u1" false
    (by decide) (by decide) (by decide) (by decide)

/-- Claim C5: for an authenticated caller with a User row and a valid
image, a caption of exactly 2200 characters passes validation and the
request succeeds, while a caption of 2201 characters is rejected with a
400 validation error and the store — the storage bucket included — is
returned unchanged, so no file was uploaded. -/
theorem postsPOST_caption_boundary (s : Store) (cid uid fn npid url : String)
    (now : Nat) (img : ImageFile) (cOk cLong : String)
    (hres : getSupabaseUserId s false cid = some uid)
    (hsize : img.size ≤ 5 * 1024 * 1024)
    (htype : strStarts "image/" img.mimeType = true)
    (hOk : cOk.length = 2200) (hLong : cLong.length = 2201) :
    (postsPOST s false false false (some cid) (some img) (some cOk)
        fn npid url now).1 = ⟨200, true, none⟩ ∧
    postsPOST s false false false (some cid) (some img) (some cLong)
        fn npid url now =
      (⟨400, false, some "Caption exceeds 2200 characters"⟩, s) := by
  have hsz : ¬ img.size > 5 * 1024 * 1024 := by omega
  have htb : (!strStarts "image/" img.mimeType) = false := by rw [htype]; rfl
  constructor
  · have hcap : captionTooLong (some cOk) = false := by
      show decide (cOk.length > 2200) = false
      rw [hOk]
      rfl
    simp [postsPOST, hres, hsz, htype, htb, hcap]
  · have hcap : captionTooLong (some cLong) = true := by
      show decide (cLong.length > 2200) = true
      rw [hLong]
      rfl
    simp [postsPOST, hres, hsz, htype, htb, hcap]

/-- Witness for C5: Alice posts a small PNG with an all-'a' caption at
both lengths 2200 and 2201. -/
theorem postsPOST_caption_boundary_witness :
    (postsPOST sampleStore false false false (some "c1")
        (some ⟨"a.png", 100, "image/png"⟩)
        (some (String.mk (List.replicate 2200 'a'))) "f.png" "p9" "u" 9).1 =
      ⟨200, true, none⟩ ∧
    postsPOST sampleStore false false false (some "c1")
        (some ⟨"a.png", 100, "image/png"⟩)
        (some (String.mk (List.replicate 2201 'a'))) "f.png" "p9" "u" 9 =
      (⟨400, false, some "Caption exceeds 2200 characters"⟩, sampleStore) :=
  postsPOST_caption_boundary sampleStore "c1" "u1" "f.png" "p9" "u" 9
    ⟨"a.png", 100, "image/png"⟩
    (String.mk (List.replicate 2200 'a')) (String.mk (List.replicate 2201 'a'))
    (by decide) (by decide) (by decide)
    (by rw [strMk_length, List.length_replicate])
    (by rw [strMk_length, List.length_replicate])

/-- Claim C6: a comment whose content is empty or whitespace-only
(trims to the empty string) is rejected with a 400 validation error and
the store is returned unchanged — no Comment row is written — while an
accepted comment is inserted with its trimmed content. -/
theorem commentsPOST_whitespace_and_trim (s : Store) (cid pid content ncid uid : String)
    (now : Nat) (lookupFail insertFail : Bool) :
    (strTrim content = "" →
      (commentsPOST s lookupFail (some cid) pid content ncid now insertFail).1.status = 400 ∧
      (commentsPOST s lookupFail (some cid) pid content ncid now insertFail).2 = s) ∧
    (pid ≠ "" → content ≠ "" → strTrim content ≠ "" →
      getSupabaseUserId s lookupFail cid = some uid →
      commentsPOST s lookupFail (some cid) pid content ncid now false =
        (⟨200, true, none⟩,
          { s with comments := s.comments ++
              [⟨ncid, pid, uid, strTrim content, now⟩] })) := by
  constructor
  · intro hws
    by_cases hpc : pid = "" ∨ content = ""
    · constructor <;> (simp only [commentsPOST]; rw [if_pos hpc])
    · have hlen : (strTrim content).length = 0 := by rw [hws]; rfl
      constructor <;> (simp only [commentsPOST]; rw [if_neg hpc, if_pos hlen])
  · intro hpid hcon htrim hres
    have hpc : ¬(pid = "" ∨ content = "") := by
      intro hor
      rcases hor with h1 | h2
      · exact hpid h1
      · exact hcon h2
    have hlen : ¬(strTrim content).length = 0 :=
      strLength_ne_zero (strTrim content) htrim
    simp only [commentsPOST]
    rw [if_neg hpc, if_neg hlen, hres]
    rfl

/-- Witness for C6: a whitespace-only comment on "p1" is rejected with
no write, and the comment " hi " is stored as "hi". -/
theorem commentsPOST_whitespace_and_trim_witness :
    ((commentsPOST sampleStore false (some "c1") "p1" "  " "k1" 7 false).1.status = 400 ∧
      (commentsPOST sampleStore false (some "c1") "p1" "  " "k1" 7 false).2 = sampleStore) ∧
    commentsPOST sampleStore false (some "c1") "p1" " hi " "k1" 7 false =
      (⟨200, true, none⟩,
        { sampleStore with comments := [⟨"k1", "p1", "u1", "hi", 7⟩] }) := by
  have h1 := commentsPOST_whitespace_and_trim sampleStore "c1" "p1" "  " "k1" "u1" 7 false false
  have h2 := commentsPOST_whitespace_and_trim sampleStore "c1" "p1" " hi " "k1" "u1" 7 false false
  refine ⟨h1.1 (by decide), ?_⟩
  have h3 := h2.2 (by decide) (by decide) (by decide) (by decide)
  rw [h3]
  rfl

/-- Claim C9 (amended): every mutation handler requires an authenticated
caller, answering 401 with the store unchanged when authentication is
absent — except that the post-deletion handler first checks that its
postId route parameter is present, so its 401 is stated under that
parameter being present.  The follow, unfollow and post-creation
handlers resolve the caller's User row before validating the request
payload, and the post-deletion handler resolves it directly after its
parameter and auth checks, so each of those four answers 404 to a caller
with no User row regardless of the rest of the request; but the like,
unlike, comment-creation and comment-deletion handlers validate the
request payload before resolving the User row — as does the
post-deletion parameter check — so a request that both has no User row
and carries an invalid payload receives the validation outcome 400 from
them, not 404. -/
theorem mutation_handlers_identity_order (s : Store)
    (cid pid content fid ncid kid fn npid url : String) (now : Nat)
    (lookupFail race upsertFail insertFail readFail upFail cInsFail fInsFail
      lDelFail cFetchFail cDelFail fDelFail pFetchFail pStorFail pDelFail : Bool)
    (img : Option ImageFile) (caption : Option String) :
    (likesPOST s lookupFail none pid race upsertFail =
      (⟨401, false, some "Unauthorized"⟩, s) ∧
     likesDELETE s lookupFail none pid lDelFail =
      (⟨401, false, some "Unauthorized"⟩, s) ∧
     commentsPOST s lookupFail none pid content ncid now cInsFail =
      (⟨401, false, some "Unauthorized"⟩, s) ∧
     commentsDELETE s lookupFail cFetchFail cDelFail none kid =
      (⟨401, false, some "Unauthorized"⟩, s) ∧
     followsPOST s lookupFail readFail fInsFail none fid =
      (⟨401, false, some "Unauthorized"⟩, s, []) ∧
     followsDELETE s lookupFail fDelFail none fid =
      (⟨401, false, some "Unauthorized"⟩, s) ∧
     postsPOST s lookupFail upFail insertFail none img caption fn npid url now =
      (⟨401, false, some "Unauthorized"⟩, s) ∧
     (pid ≠ "" →
       postsDELETE s lookupFail pFetchFail pStorFail pDelFail none pid =
        (⟨401, false, some "Unauthorized"⟩, s))) ∧
    (likesPOST s lookupFail (some cid) "" race upsertFail =
      (⟨400, false, some "postId is required"⟩, s) ∧
     likesDELETE s lookupFail (some cid) "" lDelFail =
      (⟨400, false, some "postId is required"⟩, s) ∧
     commentsPOST s lookupFail (some cid) "" content ncid now cInsFail =
      (⟨400, false, some "postId and content are required"⟩, s) ∧
     commentsDELETE s lookupFail cFetchFail cDelFail (some cid) "" =
      (⟨400, false, some "commentId is required"⟩, s) ∧
     postsDELETE s lookupFail pFetchFail pStorFail pDelFail (some cid) "" =
      (⟨400, false, some "postId is required"⟩, s)) ∧
    (getSupabaseUserId s lookupFail cid = none →
      followsPOST s lookupFail readFail fInsFail (some cid) fid =
        (⟨404, false, some "User not found in database"⟩, s, [StoreOp.read "users"]) ∧
      followsDELETE s lookupFail fDelFail (some cid) fid =
        (⟨404, false, some "User not found in database"⟩, s) ∧
      postsPOST s lookupFail upFail insertFail (some cid) img caption fn npid url now =
        (⟨404, false, some "User not found in database"⟩, s) ∧
      (pid ≠ "" →
        postsDELETE s lookupFail pFetchFail pStorFail pDelFail (some cid) pid =
          (⟨404, false, some "User not found in database"⟩, s))) := by
  refine ⟨⟨rfl, rfl, rfl, rfl, rfl, rfl, rfl, ?_⟩, ⟨rfl, rfl, ?_, rfl, rfl⟩, ?_⟩
  · intro hpid
    simp only [postsDELETE]
    rw [if_neg hpid]
  · simp only [commentsPOST]
    rw [if_pos (Or.inl trivial)]
  · intro hnone
    refine ⟨?_, ?_, ?_, ?_⟩
    · simp only [followsPOST]
      rw [hnone]
    · simp only [followsDELETE]
      rw [hnone]
    · simp only [postsPOST]
      rw [hnone]
    · intro hpid
      simp only [postsDELETE]
      rw [if_neg hpid, hnone]

/-- Witness for C9 (amended): concrete 401, 400 and 404 runs of the
handlers on the sample store with clerk id "c9", which has no User
row — including the post-deletion handler's 401 under a present
parameter, the comment-deletion 400 on a falsy commentId, and the
unfollow and post-deletion 404s for the missing User row. -/
theorem mutation_handlers_identity_order_witness :
    (likesPOST sampleStore false none "p1" false false =
      (⟨401, false, some "Unauthorized"⟩, sampleStore)) ∧
    (postsDELETE sampleStore false false false false none "p1" =
      (⟨401, false, some "Unauthorized"⟩, sampleStore)) ∧
    (likesPOST sampleStore false (some "c9") "" false false =
      (⟨400, false, some "postId is required"⟩, sampleStore)) ∧
    (commentsDELETE sampleStore false false false (some "c9") "" =
      (⟨400, false, some "commentId is required"⟩, sampleStore)) ∧
    (followsPOST sampleStore false false false (some "c9") "u1" =
      (⟨404, false, some "User not found in database"⟩, sampleStore,
        [StoreOp.read "users"])) ∧
    (followsDELETE sampleStore false false (some "c9") "u1" =
      (⟨404, false, some "User not found in database"⟩, sampleStore)) ∧
    (postsDELETE sampleStore false false false false (some "c9") "p1" =
      (⟨404, false, some "User not found in database"⟩, sampleStore)) := by
  have h := mutation_handlers_identity_order sampleStore "c9" "p1" "hey" "u1" "k1" "k2"
    "f.png" "p9" "u" 7 false false false false false false false false
    false false false false false false false
    (some ⟨"a.png", 100, "image/png"⟩) none
  have h404 := h.2.2 (by decide)
  exact ⟨h.1.1, h.1.2.2.2.2.2.2.2 (by decide), h.2.1.1, h.2.1.2.2.2.1,
    h404.1, h404.2.1, h404.2.2.2 (by decide)⟩

/-- Counterexample for C9 as stated: clerk id "c9" has no User row in
the sample store, yet the like request with a falsy postId and the
comment request with whitespace-only content are both answered with the
validation outcome 400, not the identity outcome 404 — those handlers
validate the payload before resolving the User row. -/
theorem mutation_handlers_identity_order_counterexample :
    getSupabaseUserId sampleStore false "c9" = none ∧
    (likesPOST sampleStore false (some "c9") "" false false).1.status = 400 ∧
    (commentsPOST sampleStore false (some "c9") "p1" "   " "k1" 7 false).1.status = 400 := by
  decide

/-- Claim C10: the feed and post-detail assemblers are total — one
response entry per fetched stats row no matter what the secondary reads
return — and a failed author read (lookup yielding `none`) substitutes
the raw user id and the name "Unknown" for the post's author and for
each comment's author instead of failing the request. -/
theorem author_lookup_fallback :
    (∀ (userLookup : String → Option UserRow)
       (commentsLookup : String → Option (List CommentRow))
       (lc cc : String → Nat) (rows : List PostRow),
      (feedAssemble userLookup commentsLookup lc cc rows).length = rows.length) ∧
    (∀ (commentsLookup : String → Option (List CommentRow))
       (lc cc : String → Nat) (p : PostRow),
      (assemblePost (fun _ => none) commentsLookup lc cc p).user =
        ⟨p.user_id, "Unknown"⟩ ∧
      (assemblePost (fun _ => none) commentsLookup lc cc p).id = p.id) ∧
    (∀ c : CommentRow,
      (enrichComment (fun _ => none) c).user = ⟨c.user_id, "Unknown"⟩ ∧
      (enrichComment (fun _ => none) c).content = c.content) ∧
    (∀ (comments : Option (List CommentRow)) (lc cc : Nat) (p : PostRow),
      (postDetailAssemble (fun _ => none) comments lc cc p).user =
        ⟨p.user_id, "Unknown"⟩ ∧
      (postDetailAssemble (fun _ => none) comments lc cc p).id = p.id ∧
      (postDetailAssemble (fun _ => none) comments lc cc p).recent_comments =
        (comments.getD []).map (enrichComment (fun _ => none))) := by
  refine ⟨?_, ?_, ?_, ?_⟩
  · intro userLookup commentsLookup lc cc rows
    exact List.length_map rows _
  · intro commentsLookup lc cc p
    exact ⟨rfl, rfl⟩
  · intro c
    exact ⟨rfl, rfl⟩
  · intro comments lc cc p
    exact ⟨rfl, rfl, rfl⟩

/-- The ordered view over the feed rows is a permutation of them, so id
uniqueness transfers from the table to the view. -/
theorem orderPostsDesc_ids_nodup (s : Store) (uid : Option String)
    (hids : (s.posts.map PostRow.id).Nodup) :
    ((orderPostsDesc (feedRows s uid)).map PostRow.id).Nodup := by
  have hrows : ((feedRows s uid).map PostRow.id).Nodup := by
    unfold feedRows
    cases uid with
    | none => exact hids
    | some u =>
      exact List.Nodup.sublist
        (List.Sublist.map PostRow.id (List.filter_sublist s.posts)) hids
  have hperm : (orderPostsDesc (feedRows s uid)).Perm (feedRows s uid) :=
    List.perm_insertionSort byCreatedAtDesc (feedRows s uid)
  exact (hperm.map PostRow.id).symm.nodup hrows

/-- Claim C8: a feed page holds at most `limit` posts, is sorted by
creation time descending, and is exactly the slice starting at `offset`
of the descending-ordered (optionally user-filtered) post list; in
particular the pages (limit 10, offset 0) and (limit 10, offset 10) are
contiguous — together they form the first 20 ordered posts — and share
no post id when the table's post ids are unique. -/
theorem postsGET_pagination (s : Store) (uid : Option String)
    (hids : (s.posts.map PostRow.id).Nodup) :
    (∀ limit offset, (postsGET s limit offset uid).length ≤ limit) ∧
    (∀ limit offset, List.Sorted byCreatedAtDesc (postsGET s limit offset uid)) ∧
    (∀ limit offset, postsGET s limit offset uid =
      ((orderPostsDesc (feedRows s uid)).drop offset).take limit) ∧
    (postsGET s 10 0 uid ++ postsGET s 10 10 uid =
      (orderPostsDesc (feedRows s uid)).take 20) ∧
    (∀ p ∈ postsGET s 10 0 uid, ∀ q ∈ postsGET s 10 10 uid, p.id ≠ q.id) := by
  have hsorted : List.Sorted byCreatedAtDesc (orderPostsDesc (feedRows s uid)) :=
    List.sorted_insertionSort byCreatedAtDesc (feedRows s uid)
  refine ⟨?_, ?_, fun _ _ => rfl, ?_, ?_⟩
  · intro limit offset
    exact List.length_take_le limit _
  · intro limit offset
    have hsub : (((orderPostsDesc (feedRows s uid)).drop offset).take limit).Sublist
        (orderPostsDesc (feedRows s uid)) :=
      (List.take_sublist limit _).trans (List.drop_sublist offset _)
    exact List.Pairwise.sublist hsub hsorted
  · show ((orderPostsDesc (feedRows s uid)).drop 0).take 10 ++
        ((orderPostsDesc (feedRows s uid)).drop 10).take 10 =
        (orderPostsDesc (feedRows s uid)).take 20
    rw [List.drop_zero]
    have h20 : (20 : Nat) = 10 + 10 := rfl
    rw [h20, List.take_add]
  · intro p hp q hq
    have hnd := orderPostsDesc_ids_nodup s uid hids
    have hdisj : (List.take 10 ((orderPostsDesc (feedRows s uid)).map PostRow.id)).Disjoint
        (List.drop 10 ((orderPostsDesc (feedRows s uid)).map PostRow.id)) :=
      List.disjoint_take_drop hnd (Nat.le_refl 10)
    have hp1 : p.id ∈ List.take 10 ((orderPostsDesc (feedRows s uid)).map PostRow.id) := by
      rw [← List.map_take]
      have hp0 : p ∈ (orderPostsDesc (feedRows s uid)).take 10 := by
        have := hp
        rw [show postsGET s 10 0 uid =
          ((orderPostsDesc (feedRows s uid)).drop 0).take 10 from rfl,
          List.drop_zero] at this
        exact this
      exact List.mem_map_of_mem PostRow.id hp0
    have hq1 : q.id ∈ List.drop 10 ((orderPostsDesc (feedRows s uid)).map PostRow.id) := by
      rw [← List.map_drop]
      have hq0 : q ∈ (orderPostsDesc (feedRows s uid)).drop 10 :=
        List.mem_of_mem_take hq
      exact List.mem_map_of_mem PostRow.id hq0
    intro heq
    exact hdisj hp1 (heq ▸ hq1)

/-- A twelve-post store with distinct ids and varied timestamps, for
exercising the pagination boundaries concretely. -/
def feedSampleStore : Store :=
  { users := [⟨"u1", "c1", "Alice"⟩]
    posts := [⟨"p01", "u1", "i", none, 3⟩, ⟨"p02", "u1", "i", none, 9⟩,
              ⟨"p03", "u1", "i", none, 1⟩, ⟨"p04", "u1", "i", none, 7⟩,
              ⟨"p05", "u1", "i", none, 5⟩, ⟨"p06", "u1", "i", none, 9⟩,
              ⟨"p07", "u1", "i", none, 2⟩, ⟨"p08", "u1", "i", none, 8⟩,
              ⟨"p09", "u1", "i", none, 4⟩, ⟨"p10", "u1", "i", none, 6⟩,
              ⟨"p11", "u1", "i", none, 0⟩, ⟨"p12", "u1", "i", none, 9⟩]
    likes := []
    comments := []
    follows := []
    storageFiles := [] }

/-- Witness for C8: on the twelve-post store, page (10, 0) holds ten
posts, the two pages are contiguous, and the concrete second page holds
the remaining two oldest posts. -/
theorem postsGET_pagination_witness :
    (postsGET feedSampleStore 10 0 none).length ≤ 10 ∧
    (postsGET feedSampleStore 10 0 none ++ postsGET feedSampleStore 10 10 none =
      (orderPostsDesc (feedRows feedSampleStore none)).take 20) ∧
    (postsGET feedSampleStore 10 10 none).map PostRow.id = ["p03", "p11"] := by
  have h := postsGET_pagination feedSampleStore none (by decide)
  exact ⟨h.1 10 0, h.2.2.2.1, by decide⟩

end SnsApi
